import Mathlib

/-!
Verification of `src/graphics/scrolling_text.rs` from the
microbit-blinkenlights repository: the two scrolling-text scrollers
`ScrollingStaticText` (borrowed message slice) and `ScrollingBufferedText`
(owned fixed 128-byte buffer), together with the animation state machine
they share.

Byte values are modelled as `Nat`, byte strings as `List Nat`, and Rust
slice indexing as `List.getElem?` (so an out-of-bounds access, which
panics in Rust, is `none` here).  `ScrollingBufferedText::set_message`,
which can panic on its capacity assertion, is modelled as returning
`Except`: statements are translated in source order, and a panic aborts
with the scroller state as it stands at the moment the panic fires
(`Except.error`), while normal completion yields the updated scroller
(`Except.ok`).

The module `crate::graphics::scrolling` (`ScrollingState`, the `Animate`
operations `reset`/`tick`/`is_finished`, and the default brightness
interpolation `current_brightness_at`) and the font table
`crate::graphics::font` are collaborators whose sources are not part of
this repository snapshot; they are modelled from the specification and
marked as such in their doc comments.
-/

/-- Modelled from the spec: a `Glyph`/`BitImage` is an immutable 5×5
binary pixel grid owned by the font table (spec §3); the concrete
representation from `crate::graphics::image` is not in the snapshot. -/
structure BitImage where
  rows : List (List Nat)
deriving DecidableEq

/-- Pixel lookup in a glyph: row `y`, column `x`; out-of-grid reads are 0. -/
def BitImage.pixel (img : BitImage) (x y : Nat) : Nat :=
  (img.rows.getD y []).getD x 0

namespace font

/-- Modelled from the spec: the font-table collaborator
(`crate::graphics::font`, not in the snapshot) is a lookup function
mapping an ASCII byte to an immutable glyph image, returning a
deterministic (possibly blank) image for every byte value (spec §6).
The concrete glyph shapes are irrelevant to every claim below; any
total deterministic function is a faithful model, and this one is
chosen arbitrarily. -/
def character (b : Nat) : BitImage :=
  ⟨List.replicate 5 (List.replicate 5 (b % 2))⟩

end font

/-- Modelled from the spec: number of discrete animation steps to
traverse one glyph width of horizontal motion — the glyph's pixel
width, 5, so the display advances one pixel column per tick
(spec §4.1 and the §8 scenario). -/
def STEPS_PER_SYMBOL : Nat := 5

/-- Modelled from the spec: the animation clock of
`crate::graphics::scrolling` — current symbol index and sub-step
counter (spec §2, §3). -/
structure ScrollingState where
  symbol_index : Nat
  sub_step : Nat
deriving DecidableEq

namespace ScrollingState

/-- Modelled from the spec: the default state of a freshly created
scroller, `symbol_index = 0`, `sub_step = 0` (spec §3 lifecycle). -/
def default : ScrollingState := ⟨0, 0⟩

/-- Modelled from the spec: `Animate::reset()` unconditionally sets
`symbol_index = 0` and `sub_step = 0` (spec §4.1). -/
def reset (_ : ScrollingState) : ScrollingState := ⟨0, 0⟩

/-- Modelled from the spec: `Animate::is_finished()` is true iff
`symbol_index` equals the length supplied by the owning Scrollable
(spec §4.1). -/
def is_finished (len : Nat) (s : ScrollingState) : Bool :=
  s.symbol_index == len

/-- Modelled from the spec: `Animate::tick()` is a no-op if finished;
otherwise it increments `sub_step`, and on reaching `STEPS_PER_SYMBOL`
resets `sub_step` to 0 and increments `symbol_index` (spec §4.1). -/
def tick (len : Nat) (s : ScrollingState) : ScrollingState :=
  if s.symbol_index = len then s
  else if s.sub_step + 1 = STEPS_PER_SYMBOL then ⟨s.symbol_index + 1, 0⟩
  else ⟨s.symbol_index, s.sub_step + 1⟩

/-- `n` consecutive `tick` calls against a fixed message length. -/
def ticks (len : Nat) : Nat → ScrollingState → ScrollingState
  | 0, s => s
  | n + 1, s => tick len (ticks len n s)

end ScrollingState

/-- Modelled from the spec: the `Scrollable` default brightness
interpolation `current_brightness_at(x, y)` (spec §4.2).  It determines
which message position is visible at on-screen column `x` given the
animation offset and reads the corresponding glyph column; a position
at or past the message boundary renders blank (brightness 0).  The
spec leaves the exact sub-pixel blending policy open (§9); this model
uses a hard per-column cut, with lit pixels at brightness 9.  The
claims below depend only on the delegation structure, not on this
numeric policy. -/
def currentBrightnessAt (len : Nat) (st : ScrollingState)
    (glyph : Nat → Option BitImage) (x y : Nat) : Nat :=
  let col := x + st.sub_step
  let idx := st.symbol_index + col / 5
  if idx < len then
    match glyph idx with
    | some img => if img.pixel (col % 5) y = 1 then 9 else 0
    | none => 0
  else 0

/-- `ScrollingStaticText` (src/graphics/scrolling_text.rs, lines 30–35):
a borrowed static byte-string slice plus a `ScrollingState`. -/
structure ScrollingStaticText where
  message : List Nat
  state : ScrollingState
deriving DecidableEq

namespace ScrollingStaticText

/-- `#[derive(Default)]` (line 30): empty slice, default state. -/
def default : ScrollingStaticText := ⟨[], ScrollingState.default⟩

/-- `ScrollingStaticText::set_message` (lines 42–45): replaces the
slice reference and calls `reset()`. -/
def set_message (s : ScrollingStaticText) (message : List Nat) :
    ScrollingStaticText :=
  { s with message := message, state := s.state.reset }

/-- `Scrollable::length` for `ScrollingStaticText` (lines 53–55). -/
def length (s : ScrollingStaticText) : Nat :=
  s.message.length

/-- `Scrollable::subimage` for `ScrollingStaticText` (lines 65–67):
`font::character(self.message[index])`; the Rust slice index panics
out of bounds, modelled as `none`. -/
def subimage (s : ScrollingStaticText) (index : Nat) : Option BitImage :=
  (s.message[index]?).map font.character

/-- `Animate::reset` lifted to the scroller. -/
def reset (s : ScrollingStaticText) : ScrollingStaticText :=
  { s with state := s.state.reset }

/-- `Animate::is_finished` lifted to the scroller. -/
def is_finished (s : ScrollingStaticText) : Bool :=
  s.state.is_finished s.length

/-- `Animate::tick` lifted to the scroller. -/
def tick (s : ScrollingStaticText) : ScrollingStaticText :=
  { s with state := s.state.tick s.length }

/-- `n` consecutive `tick` calls. -/
def ticks : Nat → ScrollingStaticText → ScrollingStaticText
  | 0, s => s
  | n + 1, s => (ticks n s).tick

/-- The `Scrollable` default method `current_brightness_at`,
instantiated for this variant. -/
def current_brightness_at (s : ScrollingStaticText) (x y : Nat) : Nat :=
  currentBrightnessAt s.length s.state s.subimage x y

/-- `impl Render for ScrollingStaticText` (lines 72–78):
`brightness_at(x, y)` delegates to `current_brightness_at(x, y)`. -/
def brightness_at (s : ScrollingStaticText) (x y : Nat) : Nat :=
  s.current_brightness_at x y

end ScrollingStaticText

/-- `ScrollingBufferedText` (lines 82–87): a recorded length, an owned
128-byte buffer, and a `ScrollingState`.  The buffer is a `List Nat`
whose length is 128 in every reachable state. -/
structure ScrollingBufferedText where
  length : Nat
  message : List Nat
  state : ScrollingState
deriving DecidableEq

namespace ScrollingBufferedText

/-- `impl Default for ScrollingBufferedText` (lines 110–120):
length 0, zeroed 128-byte buffer, default state. -/
def default : ScrollingBufferedText :=
  ⟨0, List.replicate 128 0, ScrollingState.default⟩

/-- `ScrollingBufferedText::set_message` (lines 100–105), translated
statement by statement:
`assert!(message.len() <= 128)`, then `self.length = message.len()`,
then `self.message[..self.length].copy_from_slice(message)`, then
`self.reset()`.  A panic aborts with the scroller as it stands when the
panic fires (`Except.error`); the assertion is the first statement, so
the error carries the scroller unmodified. -/
def set_message (s : ScrollingBufferedText) (message : List Nat) :
    Except ScrollingBufferedText ScrollingBufferedText :=
  if message.length ≤ 128 then
    Except.ok { length := message.length,
                message := message ++ s.message.drop message.length,
                state := s.state.reset }
  else
    Except.error s

/-- `Scrollable::length` for `ScrollingBufferedText` (lines 126–128):
returns the recorded length field. -/
def get_length (s : ScrollingBufferedText) : Nat :=
  s.length

/-- `Scrollable::subimage` for `ScrollingBufferedText` (lines 138–140):
`font::character(self.message[index])`, indexing the owned buffer. -/
def subimage (s : ScrollingBufferedText) (index : Nat) : Option BitImage :=
  (s.message[index]?).map font.character

/-- `Animate::reset` lifted to the scroller. -/
def reset (s : ScrollingBufferedText) : ScrollingBufferedText :=
  { s with state := s.state.reset }

/-- `Animate::is_finished` lifted to the scroller. -/
def is_finished (s : ScrollingBufferedText) : Bool :=
  s.state.is_finished s.get_length

/-- `Animate::tick` lifted to the scroller. -/
def tick (s : ScrollingBufferedText) : ScrollingBufferedText :=
  { s with state := s.state.tick s.get_length }

/-- `n` consecutive `tick` calls. -/
def ticks : Nat → ScrollingBufferedText → ScrollingBufferedText
  | 0, s => s
  | n + 1, s => (ticks n s).tick

/-- The `Scrollable` default method `current_brightness_at`,
instantiated for this variant. -/
def current_brightness_at (s : ScrollingBufferedText) (x y : Nat) : Nat :=
  currentBrightnessAt s.get_length s.state s.subimage x y

/-- `impl Render for ScrollingBufferedText` (lines 144–150):
`brightness_at(x, y)` delegates to `current_brightness_at(x, y)`. -/
def brightness_at (s : ScrollingBufferedText) (x y : Nat) : Nat :=
  s.current_brightness_at x y

/-- Well-formedness of a buffered scroller: the owned buffer has
exactly 128 bytes and the recorded length fits the capacity.  It holds
for `default` and is preserved by every operation. -/
def WF (s : ScrollingBufferedText) : Prop :=
  s.message.length = 128 ∧ s.length ≤ 128

instance (s : ScrollingBufferedText) : Decidable s.WF := by
  unfold WF; infer_instance

end ScrollingBufferedText

/-- Concrete sample: a buffered scroller as produced by
`ScrollingBufferedText.default.set_message [72, 73]` (the message `HI`). -/
def sampleBuf : ScrollingBufferedText :=
  ⟨2, [72, 73] ++ List.replicate 126 0, ⟨0, 0⟩⟩

/-- Concrete sample: a static scroller displaying `HI`. -/
def sampleStatic : ScrollingStaticText :=
  ⟨[72, 73], ⟨0, 0⟩⟩

/-! ## Helper lemmas about the animation state machine -/

theorem ScrollingState.ticks_succ (len n : Nat) (s : ScrollingState) :
    ScrollingState.ticks len (n + 1) s =
      ScrollingState.tick len (ScrollingState.ticks len n s) := rfl

/-- Running the clock from the reset state: as long as at most
`len * 5` ticks have happened, the state is `⟨n / 5, n % 5⟩`. -/
theorem ScrollingState.ticks_from_reset (len n : Nat) (h : n ≤ len * 5) :
    ScrollingState.ticks len n ⟨0, 0⟩ = ⟨n / 5, n % 5⟩ := by
  induction n with
  | zero => simp [ScrollingState.ticks]
  | succ n ih =>
    have hn : n < len * 5 := by omega
    rw [ScrollingState.ticks_succ, ih (by omega)]
    have h1 : ¬ (n / 5 = len) := by omega
    simp only [ScrollingState.tick, STEPS_PER_SYMBOL, h1, if_false]
    by_cases h2 : n % 5 + 1 = 5
    · simp only [h2, if_true, ScrollingState.mk.injEq]
      omega
    · simp only [h2, if_false, ScrollingState.mk.injEq]
      omega

/-- Once `len * 5` ticks have happened the clock sits at `⟨len, 0⟩`
and stays there. -/
theorem ScrollingState.ticks_from_reset_ge (len n : Nat) (h : len * 5 ≤ n) :
    ScrollingState.ticks len n ⟨0, 0⟩ = ⟨len, 0⟩ := by
  obtain ⟨k, rfl⟩ := Nat.exists_eq_add_of_le h
  induction k with
  | zero =>
    rw [Nat.add_zero, ScrollingState.ticks_from_reset len (len * 5) le_rfl]
    simp only [ScrollingState.mk.injEq]
    omega
  | succ k ih =>
    have : len * 5 + (k + 1) = (len * 5 + k) + 1 := by omega
    rw [this, ScrollingState.ticks_succ, ih (by omega)]
    simp [ScrollingState.tick]

/-- The finishing condition as a function of the tick count, from
the reset state. -/
theorem ScrollingState.is_finished_ticks (len n : Nat) :
    ScrollingState.is_finished len (ScrollingState.ticks len n ⟨0, 0⟩) = true ↔
      len * STEPS_PER_SYMBOL ≤ n := by
  simp only [STEPS_PER_SYMBOL]
  by_cases h : len * 5 ≤ n
  · rw [ScrollingState.ticks_from_reset_ge len n h]
    simp [ScrollingState.is_finished, h]
  · rw [ScrollingState.ticks_from_reset len n (by omega)]
    simp only [ScrollingState.is_finished, beq_iff_eq]
    omega

theorem ScrollingStaticText.ticks_message (n : Nat) (s : ScrollingStaticText) :
    (ScrollingStaticText.ticks n s).message = s.message := by
  induction n with
  | zero => rfl
  | succ n ih => simp [ScrollingStaticText.ticks, ScrollingStaticText.tick, ih]

theorem ScrollingStaticText.ticks_state_static (n : Nat) (s : ScrollingStaticText) :
    (ScrollingStaticText.ticks n s).state =
      ScrollingState.ticks s.length n s.state := by
  induction n with
  | zero => rfl
  | succ n ih =>
    simp [ScrollingStaticText.ticks, ScrollingStaticText.tick,
      ScrollingState.ticks_succ, ih, ScrollingStaticText.length,
      ScrollingStaticText.ticks_message]

theorem ScrollingBufferedText.ticks_get_length (n : Nat)
    (s : ScrollingBufferedText) :
    (ScrollingBufferedText.ticks n s).get_length = s.get_length := by
  induction n with
  | zero => rfl
  | succ n ih =>
    simp [ScrollingBufferedText.ticks, ScrollingBufferedText.tick,
      ScrollingBufferedText.get_length] at ih ⊢
    exact ih

theorem ScrollingBufferedText.ticks_state_buffered (n : Nat)
    (s : ScrollingBufferedText) :
    (ScrollingBufferedText.ticks n s).state =
      ScrollingState.ticks s.get_length n s.state := by
  induction n with
  | zero => rfl
  | succ n ih =>
    simp [ScrollingBufferedText.ticks, ScrollingBufferedText.tick,
      ScrollingState.ticks_succ, ih, ScrollingBufferedText.ticks_get_length]

/-! ## Claim theorems -/

/-- C1: `ScrollingBufferedText::set_message(message)` fails (panics on
its capacity assertion) if and only if `message.len() > 128`; for every
message of length at most 128 bytes it succeeds, copies the bytes into
the owned buffer, and afterwards `length()` equals `message.len()`. -/
theorem C1_set_message_capacity (s : ScrollingBufferedText) (m : List Nat) :
    ((∃ t, s.set_message m = Except.error t) ↔ 128 < m.length) ∧
    (∀ s', s.set_message m = Except.ok s' →
      s'.get_length = m.length ∧ ∀ i, i < m.length → s'.message[i]? = m[i]?) := by
  unfold ScrollingBufferedText.set_message
  by_cases h : m.length ≤ 128
  · rw [if_pos h]
    constructor
    · constructor
      · rintro ⟨t, ht⟩
        cases ht
      · intro hlt
        omega
    · intro s' hs'
      cases hs'
      refine ⟨rfl, fun i hi => ?_⟩
      show (m ++ s.message.drop m.length)[i]? = m[i]?
      exact List.getElem?_append_left hi
  · rw [if_neg h]
    constructor
    · exact ⟨fun _ => by omega, fun _ => ⟨s, rfl⟩⟩
    · intro s' hs'
      cases hs'

/-- Witness for C1 at a concrete input: `default.set_message [72, 73]`
succeeds, records length 2, and copies both bytes. -/
theorem C1_set_message_capacity_witness :
    sampleBuf.get_length = [72, 73].length ∧
      sampleBuf.message[0]? = [72, 73][0]? ∧ sampleBuf.message[1]? = [72, 73][1]? := by
  have h := (C1_set_message_capacity ScrollingBufferedText.default [72, 73]).2
    sampleBuf rfl
  exact ⟨h.1, h.2 0 (by decide), h.2 1 (by decide)⟩

/-- C2: `subimage(index)` and the brightness queries never fail: on
every well-formed scroller, every `index` below `length()` yields a
glyph (`some` image), and a message of length at most 128 passes the
capacity check of `ScrollingBufferedText::set_message`, so the copy
stays in bounds and no further bounds-check failure can surface. -/
theorem C2_subimage_total :
    (∀ (s : ScrollingStaticText) (i : Nat), i < s.length →
      (s.subimage i).isSome = true) ∧
    (∀ (s : ScrollingBufferedText) (i : Nat), s.WF → i < s.get_length →
      (s.subimage i).isSome = true) ∧
    (∀ (s : ScrollingBufferedText) (m : List Nat), m.length ≤ 128 →
      ∃ s', s.set_message m = Except.ok s') := by
  refine ⟨fun s i hi => ?_, fun s i hwf hi => ?_, fun s m hm => ?_⟩
  · have hi' : i < s.message.length := hi
    rw [ScrollingStaticText.subimage, List.getElem?_eq_getElem hi']
    rfl
  · obtain ⟨hbuf, hlen⟩ := hwf
    have hi' : i < s.length := hi
    have hi'' : i < s.message.length := by omega
    rw [ScrollingBufferedText.subimage, List.getElem?_eq_getElem hi'']
    rfl
  · exact ⟨_, by rw [ScrollingBufferedText.set_message, if_pos hm]⟩

/-- Witness for C2 at concrete inputs: index 0 of a two-symbol message
yields a glyph for both variants. -/
theorem C2_subimage_total_witness :
    (sampleStatic.subimage 0).isSome = true ∧
      (sampleBuf.subimage 0).isSome = true :=
  ⟨C2_subimage_total.1 sampleStatic 0 (by decide),
   C2_subimage_total.2.1 sampleBuf 0
     ⟨by simp [sampleBuf], by norm_num [sampleBuf]⟩ (by decide)⟩

/-- C3: for both variants, every successful `set_message` resets the
animation: whatever the prior state, afterwards `symbol_index = 0` and
`sub_step = 0`. -/
theorem C3_set_message_resets :
    (∀ (s : ScrollingStaticText) (m : List Nat),
      (s.set_message m).state = ⟨0, 0⟩) ∧
    (∀ (s : ScrollingBufferedText) (m : List Nat) (s' : ScrollingBufferedText),
      s.set_message m = Except.ok s' → s'.state = ⟨0, 0⟩) := by
  refine ⟨fun s m => rfl, fun s m s' h => ?_⟩
  rw [ScrollingBufferedText.set_message] at h
  by_cases hm : m.length ≤ 128
  · rw [if_pos hm] at h
    cases h
    rfl
  · rw [if_neg hm] at h
    cases h

/-- Witness for C3 at concrete inputs: both variants sit at
`symbol_index = 0`, `sub_step = 0` after setting the message `HI` on a
scroller whose animation had already advanced. -/
theorem C3_set_message_resets_witness :
    (ScrollingStaticText.set_message ⟨[65], ⟨1, 3⟩⟩ [72, 73]).state = ⟨0, 0⟩ ∧
      sampleBuf.state = ⟨0, 0⟩ :=
  ⟨C3_set_message_resets.1 ⟨[65], ⟨1, 3⟩⟩ [72, 73],
   C3_set_message_resets.2 ScrollingBufferedText.default [72, 73] sampleBuf rfl⟩

/-- C4: for a message of length `L` and `S = STEPS_PER_SYMBOL`,
starting from `reset()`, the scroller is finished exactly at and after
`L * S` ticks: `is_finished()` is false for every tick count strictly
below `L * S` and true at or after it — for both variants. -/
theorem C4_finished_iff_enough_ticks :
    (∀ (s : ScrollingStaticText) (n : Nat),
      (ScrollingStaticText.ticks n s.reset).is_finished = true ↔
        s.length * STEPS_PER_SYMBOL ≤ n) ∧
    (∀ (s : ScrollingBufferedText) (n : Nat),
      (ScrollingBufferedText.ticks n s.reset).is_finished = true ↔
        s.get_length * STEPS_PER_SYMBOL ≤ n) := by
  constructor
  · intro s n
    have hst : (ScrollingStaticText.ticks n s.reset).state =
        ScrollingState.ticks s.length n ⟨0, 0⟩ :=
      ScrollingStaticText.ticks_state_static n s.reset
    have hlen : (ScrollingStaticText.ticks n s.reset).length = s.length := by
      simp [ScrollingStaticText.length, ScrollingStaticText.ticks_message,
        ScrollingStaticText.reset]
    rw [ScrollingStaticText.is_finished, hlen, hst]
    exact ScrollingState.is_finished_ticks s.length n
  · intro s n
    have hst : (ScrollingBufferedText.ticks n s.reset).state =
        ScrollingState.ticks s.get_length n ⟨0, 0⟩ :=
      ScrollingBufferedText.ticks_state_buffered n s.reset
    have hlen : (ScrollingBufferedText.ticks n s.reset).get_length =
        s.get_length :=
      ScrollingBufferedText.ticks_get_length n s.reset
    rw [ScrollingBufferedText.is_finished, hlen, hst]
    exact ScrollingState.is_finished_ticks s.get_length n

/-- C5: a default-constructed scroller of either variant has
`length() = 0` and is immediately finished. -/
theorem C5_default_immediately_finished :
    ScrollingStaticText.default.length = 0 ∧
      ScrollingStaticText.default.is_finished = true ∧
      ScrollingBufferedText.default.get_length = 0 ∧
      ScrollingBufferedText.default.is_finished = true :=
  ⟨rfl, rfl, rfl, rfl⟩

/-- C6: the two variants behave identically apart from storage: for
every message (of length at most 128, as witnessed by the buffered
`set_message` succeeding), after setting it on both scrollers the two
have equal `length()`, equal `ScrollingState`, and `subimage(i)`
yields the same glyph for every `i < m.len()`. -/
theorem C6_variants_agree (s1 : ScrollingStaticText)
    (s2 : ScrollingBufferedText) (m : List Nat) (s2' : ScrollingBufferedText)
    (h : s2.set_message m = Except.ok s2') :
    (s1.set_message m).length = s2'.get_length ∧
      (s1.set_message m).state = s2'.state ∧
      ∀ i, i < m.length → (s1.set_message m).subimage i = s2'.subimage i := by
  rw [ScrollingBufferedText.set_message] at h
  by_cases hm : m.length ≤ 128
  · rw [if_pos hm] at h
    cases h
    refine ⟨rfl, rfl, fun i hi => ?_⟩
    simp only [ScrollingStaticText.subimage, ScrollingBufferedText.subimage,
      ScrollingStaticText.set_message]
    rw [List.getElem?_append_left hi]
  · rw [if_neg hm] at h
    cases h

/-- Witness for C6 at a concrete input: setting `HI` on both default
scrollers gives equal length, equal state, and the same glyph at
index 0. -/
theorem C6_variants_agree_witness :
    (ScrollingStaticText.default.set_message [72, 73]).length =
        sampleBuf.get_length ∧
      (ScrollingStaticText.default.set_message [72, 73]).state =
        sampleBuf.state ∧
      (ScrollingStaticText.default.set_message [72, 73]).subimage 0 =
        sampleBuf.subimage 0 := by
  have h := C6_variants_agree ScrollingStaticText.default
    ScrollingBufferedText.default [72, 73] sampleBuf rfl
  exact ⟨h.1, h.2.1, h.2.2 0 (by decide)⟩

/-- C7: the `Render` adapter is pure delegation: for both variants and
every scroller state and coordinate pair, `brightness_at(x, y)` returns
exactly `current_brightness_at(x, y)`; both are pure functions of the
scroller, so the call has no other effect. -/
theorem C7_render_delegates :
    (∀ (s : ScrollingStaticText) (x y : Nat),
      s.brightness_at x y = s.current_brightness_at x y) ∧
    (∀ (s : ScrollingBufferedText) (x y : Nat),
      s.brightness_at x y = s.current_brightness_at x y) :=
  ⟨fun _ _ _ => rfl, fun _ _ _ => rfl⟩

/-- C8: `length()` reports the current message length: for
`ScrollingStaticText` it is the length of the stored slice; for
`ScrollingBufferedText` it is 0 on a default-constructed scroller, it
is `m.len()` after a successful `set_message(m)`, and it is untouched
by `tick()` and `reset()` (so it is the count recorded by the most
recent successful `set_message`). -/
theorem C8_length_reports_message_length :
    (∀ s : ScrollingStaticText, s.length = s.message.length) ∧
      ScrollingBufferedText.default.get_length = 0 ∧
      (∀ (s : ScrollingBufferedText) (m : List Nat) (s' : ScrollingBufferedText),
        s.set_message m = Except.ok s' → s'.get_length = m.length) ∧
      (∀ s : ScrollingBufferedText,
        s.tick.get_length = s.get_length ∧ s.reset.get_length = s.get_length) := by
  refine ⟨fun s => rfl, rfl, fun s m s' h => ?_, fun s => ⟨rfl, rfl⟩⟩
  rw [ScrollingBufferedText.set_message] at h
  by_cases hm : m.length ≤ 128
  · rw [if_pos hm] at h
    cases h
    rfl
  · rw [if_neg hm] at h
    cases h

/-- Witness for C8 at a concrete input: after `set_message [72, 73]`
the recorded length is 2. -/
theorem C8_length_reports_message_length_witness :
    sampleBuf.get_length = [72, 73].length :=
  C8_length_reports_message_length.2.2.1 ScrollingBufferedText.default
    [72, 73] sampleBuf rfl

/-- C9: atomicity of the failing path: when
`ScrollingBufferedText::set_message(message)` is called with
`message.len() > 128`, the assertion fires before any field is
written, so the panic leaves the scroller exactly as it was — the
error value carries the unmodified scroller. -/
theorem C9_failed_set_message_changes_nothing (s : ScrollingBufferedText)
    (m : List Nat) (h : 128 < m.length) :
    s.set_message m = Except.error s := by
  rw [ScrollingBufferedText.set_message, if_neg (by omega)]

/-- Witness for C9 at a concrete input: a 129-byte message leaves the
default scroller untouched. -/
theorem C9_failed_set_message_changes_nothing_witness :
    ScrollingBufferedText.default.set_message (List.replicate 129 0) =
      Except.error ScrollingBufferedText.default :=
  C9_failed_set_message_changes_nothing ScrollingBufferedText.default
    (List.replicate 129 0) (by simp)

/-- C10: frame condition of a successful
`ScrollingBufferedText::set_message(message)`: only buffer positions
`0 .. message.len()` are overwritten; every buffer byte at a position
at or past `message.len()` keeps the value it had before the call. -/
theorem C10_set_message_frame (s : ScrollingBufferedText) (m : List Nat)
    (s' : ScrollingBufferedText) (h : s.set_message m = Except.ok s')
    (i : Nat) (hi : m.length ≤ i) :
    s'.message[i]? = s.message[i]? := by
  rw [ScrollingBufferedText.set_message] at h
  by_cases hm : m.length ≤ 128
  · rw [if_pos hm] at h
    cases h
    show (m ++ s.message.drop m.length)[i]? = s.message[i]?
    rw [List.getElem?_append_right hi, List.getElem?_drop]
    congr 1
    omega
  · rw [if_neg hm] at h
    cases h

/-- Witness for C10 at a concrete input: position 5 of the buffer is
unchanged by `default.set_message [72, 73]`. -/
theorem C10_set_message_frame_witness :
    sampleBuf.message[5]? = ScrollingBufferedText.default.message[5]? :=
  C10_set_message_frame ScrollingBufferedText.default [72, 73] sampleBuf
    rfl 5 (by decide)
